import Mathlib

/-!
Shallow embedding of the traffic-lens monitoring core (src/unnamed/part_001,
the TrafficLens class) and proofs about its published statistics.

Numbers reported by the systeminformation provider are modelled as integers
(`Int`); byte counters and per-second rates in the source are JS numbers, and
every claim under study evaluates them at integral points.  The JS idiom
`x || 0` applied to a present numeric field is the identity except at `0`,
where it yields `0` again, so on the integer model it is the identity and is
not written out.  Strings (interface names, local addresses, ports) are
modelled as `String`.
-/

namespace TrafficLens

/-- VolumeMetrics and SpeedMetrics combined: the NetworkMetrics type of the
source (upload and download byte totals, upload and download rates). -/
structure NetworkMetrics where
  upload : Int
  download : Int
  uploadSpeed : Int
  downloadSpeed : Int
deriving DecidableEq, Repr, Inhabited

/-- NetworkSnapshot of the source: NetworkMetrics plus a capture timestamp. -/
structure NetworkSnapshot extends NetworkMetrics where
  timestamp : Int
deriving DecidableEq, Repr, Inhabited

/-- ProxyMetrics of the source: NetworkMetrics plus the active connection
count. -/
structure ProxyMetrics extends NetworkMetrics where
  activeConnections : Nat
deriving DecidableEq, Repr, Inhabited

/-- TrafficStats of the source: the object published to subscribers. -/
structure TrafficStats where
  proxied : ProxyMetrics
  direct : NetworkMetrics
  timestamp : Int
deriving DecidableEq, Repr, Inhabited

/-- One entry of the list returned by the provider call si.networkStats():
the fields the source reads. -/
structure IfaceStat where
  iface : String
  operstate : String
  rx_bytes : Int
  tx_bytes : Int
  rx_sec : Int
  tx_sec : Int
deriving DecidableEq, Repr, Inhabited

/-- One entry of the list returned by si.networkConnections(): the fields the
source reads.  localPort is a string in the provider's data model. -/
structure Connection where
  localAddress : String
  localPort : String
deriving DecidableEq, Repr, Inhabited

/-- Boolean test that the first list of characters occurs at the start of the
second. -/
def charsAtStart : List Char → List Char → Bool
  | [], _ => true
  | _ :: _, [] => false
  | a :: as, b :: bs => a == b && charsAtStart as bs

/-- Boolean test that the first list of characters occurs contiguously inside
the second. -/
def charsInside (needle : List Char) : List Char → Bool
  | [] => charsAtStart needle []
  | b :: bs => charsAtStart needle (b :: bs) || charsInside needle bs

/-- JS String.prototype.includes: does the string a contain the string b as a
substring. -/
def strIncludes (a b : String) : Bool :=
  charsInside b.data a.data

/-- TrafficLens.getCurrentStats.  The provider call may fail: a failed call is
the `none` input (the source catches the rejection, logs, and returns null,
which is the `none` result).  On success the first interface whose operstate
is "up" and whose rx_bytes counter is strictly positive is selected; if none
matches the result is null/`none`. -/
def getCurrentStats (networkStats : Option (List IfaceStat)) (now : Int) :
    Option NetworkSnapshot :=
  match networkStats with
  | none => none
  | some stats =>
    match stats.find? (fun stat => stat.operstate == "up" && stat.rx_bytes > 0) with
    | none => none
    | some mainInterface =>
      some { uploadSpeed := mainInterface.tx_sec
             downloadSpeed := mainInterface.rx_sec
             upload := mainInterface.tx_bytes
             download := mainInterface.rx_bytes
             timestamp := now }

/-- Result type of TrafficLens.checkProxyConnections. -/
structure ProxyResults where
  activeConnections : Nat
  stats : Option NetworkMetrics
deriving DecidableEq, Repr, Inhabited

/-- TrafficLens.checkProxyConnections.  The two provider calls may fail; a
failure of either is the `none` input and degrades the result to zero
connections and absent stats (the catch branch).  Otherwise connections are
filtered to those whose localPort string equals the decimal rendering of the
configured proxy port, and the first interface whose name occurs inside some
surviving connection's localAddress supplies the stats. -/
def checkProxyConnections (proxyPort : Nat)
    (tables : Option (List Connection × List IfaceStat)) : ProxyResults :=
  match tables with
  | none => { activeConnections := 0, stats := none }
  | some (netConnections, networkStats) =>
    let proxyConnections :=
      netConnections.filter (fun conn => conn.localPort == toString proxyPort)
    let proxyInterface := networkStats.find? (fun stat =>
      proxyConnections.any (fun conn => strIncludes conn.localAddress stat.iface))
    { activeConnections := proxyConnections.length
      stats := proxyInterface.map (fun stat =>
        { upload := stat.tx_bytes
          download := stat.rx_bytes
          uploadSpeed := stat.tx_sec
          downloadSpeed := stat.rx_sec }) }

/-- Constructor input: proxyPort, and updateInterval when the key is given.
`none` models an absent (or undefined) updateInterval key. -/
structure ConfigInput where
  proxyPort : Nat
  updateInterval : Option Int
deriving DecidableEq, Repr, Inhabited

/-- The configuration stored on the instance after construction. -/
structure ConfigStored where
  proxyPort : Nat
  updateInterval : Int
deriving DecidableEq, Repr, Inhabited

/-- JS truthiness of a possibly-absent number: absent and 0 are falsy. -/
def jsTruthy : Option Int → Bool
  | none => false
  | some n => n != 0

/-- The TrafficLens constructor.  The guard is
`config.updateInterval && config.updateInterval < 3000`: the range check only
runs when updateInterval is truthy.  The stored config is
`\x7bupdateInterval: config.updateInterval || 5000, ...config\x7d`: the spread
puts the caller's own updateInterval back on top of the default whenever the
key is present, so a present value (0 included) is stored as given and only an
absent key receives 5000. -/
def trafficLensConstructor (config : ConfigInput) : Except String ConfigStored :=
  if jsTruthy config.updateInterval ∧ config.updateInterval.getD 0 < 3000 then
    .error "Update interval must be greater than 3 seconds"
  else
    .ok { proxyPort := config.proxyPort
          updateInterval :=
            match config.updateInterval with
            | none => 5000
            | some v => v }

/-- TrafficLens.subscribe: push the callback onto the list.  Callbacks are
compared by reference identity in the source; identities are modelled as
natural-number tokens. -/
def subscribePush (callbacks : List Nat) (callback : Nat) : List Nat :=
  callbacks ++ [callback]

/-- The disposer returned by subscribe: replace the list by its filtering to
the entries that are not (reference-)identical to the captured callback. -/
def disposerRun (callbacks : List Nat) (callback : Nat) : List Nat :=
  callbacks.filter (fun cb => cb != callback)

/-- The unit labels of formatBytes. -/
def formatUnits : List String := ["B", "KB", "MB", "GB"]

/-- The while loop of formatBytes: divide by 1024 while the size is at least
1024 and the unit index is below units.length - 1 = 3.  The guard forces the
index to increase strictly and stop at 3, so the loop runs at most 3 times
from any start index; the explicit bound argument set to 3 at the call site
makes the recursion structural without changing any result. -/
def formatLoop (size : ℚ) (unitIndex : Nat) : Nat → ℚ × Nat
  | 0 => (size, unitIndex)
  | bound + 1 =>
    if 1024 ≤ size ∧ unitIndex < formatUnits.length - 1 then
      formatLoop (size / 1024) (unitIndex + 1) bound
    else
      (size, unitIndex)

/-- JS Number.prototype.toFixed(2) on the nonnegative rationals the claim
evaluates: round to the nearest hundredth (half away from zero) and print
with exactly two decimal digits. -/
def toFixed2 (q : ℚ) : String :=
  let n : Int := (q * 100 + 1 / 2).floor
  let whole := n / 100
  let frac := n % 100
  toString whole ++ "." ++ (if frac < 10 then "0" ++ toString frac else toString frac)

/-- TrafficLens.formatBytes. -/
def formatBytes (bytes : ℚ) : String :=
  let result := formatLoop bytes 0 3
  toFixed2 result.1 ++ " " ++ formatUnits.getD result.2 ""

/-- TrafficLens.formatSpeed. -/
def formatSpeed (bytesPerSec : ℚ) : String :=
  formatBytes bytesPerSec ++ "/s"

/-- The mutable instance state of a TrafficLens object: lastStats, totalStats,
the interval handle (abstracted to whether it is non-null), the callback list
(reference identities) and the stored config. -/
structure MonitorState where
  lastStats : Option NetworkSnapshot
  totalStats : TrafficStats
  running : Bool
  callbacks : List Nat
  config : ConfigStored
deriving DecidableEq, Repr

/-- Instance state right after construction: lastStats null, totalStats all
zero with the construction-time timestamp, no interval armed, no callbacks. -/
def initMonitor (config : ConfigStored) (constructedAt : Int) : MonitorState :=
  { lastStats := none
    totalStats :=
      { proxied := { upload := 0, download := 0, uploadSpeed := 0,
                     downloadSpeed := 0, activeConnections := 0 }
        direct := { upload := 0, download := 0, uploadSpeed := 0,
                    downloadSpeed := 0 }
        timestamp := constructedAt }
    running := false
    callbacks := []
    config := config }

/-- The resolved inputs of one firing of the interval callback: the result of
getCurrentStats, the result of checkProxyConnections, and the Date.now()
value read when the tick updates state. -/
structure TickInput where
  current : Option NetworkSnapshot
  proxy : ProxyResults
  now : Int
deriving DecidableEq, Repr

/-- The body of the interval callback armed by TrafficLens.start, run once
both provider calls have resolved.  If currentStats is null the tick ends
with no effect.  Otherwise, when a previous snapshot is held: the published
proxied metrics take the proxy view's connection count always, and its
volume/speed stats only when the view matched an interface (otherwise the
previous proxied volume/speed values stay in place, since only the
activeConnections field of the existing object is assigned); direct is the
current snapshot minus the proxy view's stats with a zero fallback; the
shared totalStats is updated and published to every callback.  In every
non-null-current case the snapshot is stored as lastStats.  The returned
option is the published TrafficStats value, none when no fan-out ran. -/
def tickBody (st : MonitorState) (input : TickInput) :
    MonitorState × Option TrafficStats :=
  match input.current with
  | none => (st, none)
  | some currentStats =>
    match st.lastStats with
    | none => ({ st with lastStats := some currentStats }, none)
    | some _ =>
      let proxied : ProxyMetrics :=
        match input.proxy.stats with
        | some s => { toNetworkMetrics := s,
                      activeConnections := input.proxy.activeConnections }
        | none => { st.totalStats.proxied with
                      activeConnections := input.proxy.activeConnections }
      let fallback : NetworkMetrics :=
        (input.proxy.stats).getD
          { upload := 0, download := 0, uploadSpeed := 0, downloadSpeed := 0 }
      let direct : NetworkMetrics :=
        { upload := currentStats.upload - fallback.upload
          download := currentStats.download - fallback.download
          uploadSpeed := currentStats.uploadSpeed - fallback.uploadSpeed
          downloadSpeed := currentStats.downloadSpeed - fallback.downloadSpeed }
      let total : TrafficStats :=
        { proxied := proxied, direct := direct, timestamp := input.now }
      ({ st with totalStats := total, lastStats := some currentStats },
       some total)

/-- A monitor instance together with the interval-callback activations whose
provider calls have not yet resolved.  clearInterval prevents future firings
but does not cancel an activation already under way, so in-flight activations
survive stop(). -/
structure SysState where
  mon : MonitorState
  inflight : List TickInput
deriving DecidableEq, Repr

/-- System state for a freshly constructed instance. -/
def initSys (config : ConfigStored) (constructedAt : Int) : SysState :=
  { mon := initMonitor config constructedAt, inflight := [] }

/-- Externally observable events of one instance: a timer firing with the
provider results that tick will see, the oldest in-flight tick's provider
calls resolving (its body then runs), start(), stop(), and subscribe(). -/
inductive Ev where
  | fire (input : TickInput)
  | resolve
  | startE
  | stopE
  | subscribeE (callback : Nat)
deriving DecidableEq, Repr

/-- One event step.  Returns the new state, the TrafficStats values published
during the step (each published value is handed to every registered callback
in order), and whether the operation threw.  A timer can only fire while the
interval is armed; start() on a running instance throws and changes nothing;
stop() only clears the interval handle. -/
def stepEv (s : SysState) : Ev → SysState × List TrafficStats × Bool
  | .fire input =>
    if s.mon.running then
      ({ s with inflight := s.inflight ++ [input] }, [], false)
    else
      (s, [], false)
  | .resolve =>
    match s.inflight with
    | [] => (s, [], false)
    | input :: rest =>
      let result := tickBody s.mon input
      ({ mon := result.1, inflight := rest }, result.2.toList, false)
  | .startE =>
    if s.mon.running then
      (s, [], true)
    else
      ({ s with mon := { s.mon with running := true } }, [], false)
  | .stopE =>
    ({ s with mon := { s.mon with running := false } }, [], false)
  | .subscribeE callback =>
    ({ s with mon :=
        { s.mon with callbacks := subscribePush s.mon.callbacks callback } },
     [], false)

/-- Run a sequence of events, concatenating everything published. -/
def runTrace (s : SysState) : List Ev → SysState × List TrafficStats
  | [] => (s, [])
  | e :: rest =>
    let step := stepEv s e
    let tail := runTrace step.1 rest
    (tail.1, step.2.1 ++ tail.2)

/-- The all-zero NetworkMetrics record. -/
def zeroMetrics : NetworkMetrics :=
  { upload := 0, download := 0, uploadSpeed := 0, downloadSpeed := 0 }

/-! Concrete scenario data used to exercise the monitor. -/

/-- A stored configuration with proxy port 1080 and the default interval. -/
def exConfig : ConfigStored := { proxyPort := 1080, updateInterval := 5000 }

/-- An up interface with nonzero counters. -/
def exIfaceEn0 : IfaceStat :=
  { iface := "en0", operstate := "up", rx_bytes := 200, tx_bytes := 100,
    rx_sec := 20, tx_sec := 10 }

/-- One connection on port 1080 whose local address mentions the interface
name, so the proxy view matches the interface. -/
def exConnsMatched : List Connection :=
  [{ localAddress := "10.0.en0.1:1080", localPort := "1080" }]

/-- Three connections on port 1080 whose local addresses mention no interface
name, so the proxy view matches no interface. -/
def exConnsUnmatched : List Connection :=
  [{ localAddress := "10.0.0.7", localPort := "1080" },
   { localAddress := "10.0.0.8", localPort := "1080" },
   { localAddress := "10.0.0.9", localPort := "1080" }]

/-- Proxy view with a matched interface: 1 connection, stats present. -/
def exProxyMatched : ProxyResults :=
  checkProxyConnections 1080 (some (exConnsMatched, [exIfaceEn0]))

/-- Proxy view with no matched interface: 3 connections, stats absent. -/
def exProxyUnmatched : ProxyResults :=
  checkProxyConnections 1080 (some (exConnsUnmatched, [exIfaceEn0]))

/-- Interface snapshots for three consecutive ticks. -/
def exSnap0 : NetworkSnapshot :=
  { upload := 500, download := 600, uploadSpeed := 5, downloadSpeed := 6,
    timestamp := 0 }

/-- Second interface snapshot. -/
def exSnap1 : NetworkSnapshot :=
  { upload := 1000, download := 2000, uploadSpeed := 50, downloadSpeed := 60,
    timestamp := 5000 }

/-- Third interface snapshot. -/
def exSnap2 : NetworkSnapshot :=
  { upload := 1500, download := 2500, uploadSpeed := 70, downloadSpeed := 80,
    timestamp := 10000 }

/-- Tick inputs: the first two see the matched proxy view, the third sees the
unmatched one. -/
def exTick0 : TickInput :=
  { current := some exSnap0, proxy := exProxyMatched, now := 1000 }

/-- Second tick input. -/
def exTick1 : TickInput :=
  { current := some exSnap1, proxy := exProxyMatched, now := 6000 }

/-- Third tick input, with the unmatched proxy view. -/
def exTick2 : TickInput :=
  { current := some exSnap2, proxy := exProxyUnmatched, now := 11000 }

/-- Start, subscribe, then three completed ticks: the first seeds, the second
and third publish. -/
def exRun : SysState × List TrafficStats :=
  runTrace (initSys exConfig 0)
    [.startE, .subscribeE 0, .fire exTick0, .resolve,
     .fire exTick1, .resolve, .fire exTick2, .resolve]

/-- Start, subscribe, a completed seed tick, then a second tick fires and
stop() is called while its provider calls are still in flight. -/
def exStopMid : SysState :=
  (runTrace (initSys exConfig 0)
    [.startE, .subscribeE 0, .fire exTick0, .resolve,
     .fire exTick1, .stopE]).1

/-- Start, a completed seed tick, stop, then start again: the baseline
snapshot from before the stop is still held. -/
def exRestartMid : SysState :=
  (runTrace (initSys exConfig 0)
    [.startE, .fire exTick0, .resolve, .stopE, .startE]).1

/-- Monitor state right after the seed tick. -/
def exMon1 : MonitorState := (tickBody (initMonitor exConfig 0) exTick0).1

/-- A running instance with no completed tick. -/
def exRunning : SysState := (stepEv (initSys exConfig 0) .startE).1

/-! Helper lemmas. -/

/-- The Rat.floor projection agrees with the floor of the FloorRing order
structure on the rationals. -/
theorem ratFloorEqIntFloor (q : ℚ) : q.floor = ⌊q⌋ :=
  (Rat.floor_def' q).trans Rat.floor_def.symm

/-- One productive iteration of the formatBytes loop. -/
theorem formatLoop_step (size : ℚ) (unitIndex bound : Nat)
    (h1 : 1024 ≤ size) (h2 : unitIndex < 3) :
    formatLoop size unitIndex (bound + 1)
      = formatLoop (size / 1024) (unitIndex + 1) bound := by
  simp only [formatLoop]
  rw [if_pos]
  exact ⟨h1, h2⟩

/-- The formatBytes loop halts when the size is below 1024. -/
theorem formatLoop_halt (size : ℚ) (unitIndex bound : Nat)
    (h : ¬(1024 ≤ size)) :
    formatLoop size unitIndex (bound + 1) = (size, unitIndex) := by
  simp only [formatLoop]
  rw [if_neg]
  exact fun hc => h hc.1

/-- toFixed2 renders the rational 1 as the string 1.00. -/
theorem toFixed2_one : toFixed2 1 = "1.00" := by
  have hf : ((1 : ℚ) * 100 + 1 / 2).floor = 100 := by
    rw [ratFloorEqIntFloor]
    rw [show ((1 : ℚ) * 100 + 1 / 2) = ((201 : ℤ) : ℚ) / ((2 : ℕ) : ℚ) by
      push_cast
      norm_num]
    rw [Rat.floor_intCast_div_natCast]
    decide
  simp only [toFixed2, hf]
  decide

/-! Claim theorems. -/

/-- Claim C1, counterexample to the claim as stated.  In the three-tick run
exRun, the second publishing tick has a proxy view that matched no interface
(stats absent) and three connections on the proxy port; the claim says the
published proxied volume/speed fields are then all zero, but the published
proxied.upload is 100, retained from the previous tick whose proxy view
matched the interface. -/
theorem stale_proxied_counterexample :
    exProxyUnmatched.stats = none ∧
    exTick2.proxy = exProxyUnmatched ∧
    exRun.2.length = 2 ∧
    (exRun.2.getD 1 default).proxied.activeConnections = 3 ∧
    (exRun.2.getD 1 default).proxied.upload = 100 ∧
    (exRun.2.getD 1 default).proxied.upload ≠ 0 := by decide

/-- Claim C1, amended.  On a publishing tick (current snapshot present, prior
snapshot held) whose proxy view matched no interface, the published proxied
volume and speed fields keep the values they had before the tick (only the
live object's activeConnections field is assigned), and activeConnections
equals the count of connections filtered to the configured proxy port. -/
theorem proxied_unmatched_view (st : MonitorState) (input : TickInput)
    (l cs : NetworkSnapshot) (port : Nat)
    (conns : List Connection) (ifstats : List IfaceStat)
    (h1 : st.lastStats = some l) (h2 : input.current = some cs)
    (h3 : input.proxy = checkProxyConnections port (some (conns, ifstats)))
    (h4 : input.proxy.stats = none) :
    (tickBody st input).2 = some (tickBody st input).1.totalStats ∧
    (tickBody st input).1.totalStats.proxied.upload = st.totalStats.proxied.upload ∧
    (tickBody st input).1.totalStats.proxied.download = st.totalStats.proxied.download ∧
    (tickBody st input).1.totalStats.proxied.uploadSpeed = st.totalStats.proxied.uploadSpeed ∧
    (tickBody st input).1.totalStats.proxied.downloadSpeed = st.totalStats.proxied.downloadSpeed ∧
    (tickBody st input).1.totalStats.proxied.activeConnections =
      (conns.filter (fun conn => conn.localPort == toString port)).length := by
  have hcount : input.proxy.activeConnections =
      (conns.filter (fun conn => conn.localPort == toString port)).length := by
    rw [h3]
    simp [checkProxyConnections]
  simp [tickBody, h1, h2, h4, hcount]

/-- Claim C1, witness: the amended statement applied to the concrete
unmatched-view tick after the seed tick. -/
theorem proxied_unmatched_view_witness :
    (tickBody exMon1 exTick2).2 = some (tickBody exMon1 exTick2).1.totalStats ∧
    (tickBody exMon1 exTick2).1.totalStats.proxied.upload
      = exMon1.totalStats.proxied.upload ∧
    (tickBody exMon1 exTick2).1.totalStats.proxied.download
      = exMon1.totalStats.proxied.download ∧
    (tickBody exMon1 exTick2).1.totalStats.proxied.uploadSpeed
      = exMon1.totalStats.proxied.uploadSpeed ∧
    (tickBody exMon1 exTick2).1.totalStats.proxied.downloadSpeed
      = exMon1.totalStats.proxied.downloadSpeed ∧
    (tickBody exMon1 exTick2).1.totalStats.proxied.activeConnections =
      (exConnsUnmatched.filter (fun conn => conn.localPort == toString 1080)).length :=
  proxied_unmatched_view exMon1 exTick2 exSnap0 exSnap2 1080 exConnsUnmatched
    [exIfaceEn0] rfl rfl rfl rfl

/-- Claim C2, counterexample to the claim as stated.  On the unmatched-view
publishing tick of exRun, direct.upload is the snapshot's 1500 minus the zero
fallback, while the published proxied.upload is the retained 100, so
direct.upload differs from snapshot minus proxied. -/
theorem direct_vs_proxied_counterexample :
    exTick2.current = some exSnap2 ∧
    exSnap2.upload = 1500 ∧
    (exRun.2.getD 1 default).direct.upload = 1500 ∧
    (exRun.2.getD 1 default).proxied.upload = 100 ∧
    (exRun.2.getD 1 default).direct.upload
      ≠ exSnap2.upload - (exRun.2.getD 1 default).proxied.upload := by decide

/-- Claim C2, amended.  On every publishing tick each direct field equals the
current snapshot's field minus the proxy view's field with a zero fallback
when the view matched no interface, with no clamping; this equals the
snapshot minus the published proxied field exactly when the proxy view
matched an interface (then the published proxied metrics are the view's). -/
theorem direct_subtraction (st : MonitorState) (input : TickInput)
    (l cs : NetworkSnapshot)
    (h1 : st.lastStats = some l) (h2 : input.current = some cs) :
    (tickBody st input).2 = some (tickBody st input).1.totalStats ∧
    (tickBody st input).1.totalStats.direct.upload
      = cs.upload - (input.proxy.stats.getD zeroMetrics).upload ∧
    (tickBody st input).1.totalStats.direct.download
      = cs.download - (input.proxy.stats.getD zeroMetrics).download ∧
    (tickBody st input).1.totalStats.direct.uploadSpeed
      = cs.uploadSpeed - (input.proxy.stats.getD zeroMetrics).uploadSpeed ∧
    (tickBody st input).1.totalStats.direct.downloadSpeed
      = cs.downloadSpeed - (input.proxy.stats.getD zeroMetrics).downloadSpeed ∧
    (∀ s, input.proxy.stats = some s →
      (tickBody st input).1.totalStats.proxied.toNetworkMetrics = s) := by
  cases hst : input.proxy.stats with
  | none => simp [tickBody, h1, h2, hst, zeroMetrics]
  | some s => simp [tickBody, h1, h2, hst, zeroMetrics]

/-- Claim C2, witness: the amended statement applied to the concrete
matched-view tick after the seed tick. -/
theorem direct_subtraction_witness :
    (tickBody exMon1 exTick1).2 = some (tickBody exMon1 exTick1).1.totalStats ∧
    (tickBody exMon1 exTick1).1.totalStats.direct.upload
      = exSnap1.upload - (exTick1.proxy.stats.getD zeroMetrics).upload ∧
    (tickBody exMon1 exTick1).1.totalStats.direct.download
      = exSnap1.download - (exTick1.proxy.stats.getD zeroMetrics).download ∧
    (tickBody exMon1 exTick1).1.totalStats.direct.uploadSpeed
      = exSnap1.uploadSpeed - (exTick1.proxy.stats.getD zeroMetrics).uploadSpeed ∧
    (tickBody exMon1 exTick1).1.totalStats.direct.downloadSpeed
      = exSnap1.downloadSpeed - (exTick1.proxy.stats.getD zeroMetrics).downloadSpeed ∧
    (∀ s, exTick1.proxy.stats = some s →
      (tickBody exMon1 exTick1).1.totalStats.proxied.toNetworkMetrics = s) :=
  direct_subtraction exMon1 exTick1 exSnap0 exSnap1 rfl rfl

/-- Claim C3: the constructor accepts updateInterval 0 although 0 is strictly
below 3000, because the guard first tests the value for truthiness and 0 is
falsy; the spread in the stored config then keeps the 0.  A nonzero value
below 3000 is rejected with the documented error and 3000 is accepted, so the
only escape from the documented minimum is the falsy zero. -/
theorem constructor_zero_interval_accepted :
    trafficLensConstructor { proxyPort := 1080, updateInterval := some 0 }
      = .ok { proxyPort := 1080, updateInterval := 0 } ∧
    (0 : Int) < 3000 ∧
    trafficLensConstructor { proxyPort := 1080, updateInterval := some 2999 }
      = .error "Update interval must be greater than 3 seconds" ∧
    trafficLensConstructor { proxyPort := 1080, updateInterval := some 3000 }
      = .ok { proxyPort := 1080, updateInterval := 3000 } :=
  ⟨rfl, by decide, rfl, rfl⟩

/-- Claim C4, counterexample to the claim as stated.  In exStopMid, stop()
was called while the second tick's provider calls were in flight and a
subscriber is registered; resolving that tick afterwards still publishes,
because the tick body never rechecks the interval handle. -/
theorem inflight_publish_after_stop :
    exStopMid.mon.running = false ∧
    exStopMid.mon.callbacks = [0] ∧
    (runTrace exStopMid [.resolve]).2 ≠ [] := by decide

/-- Claim C4, amended.  After stop(), provided no tick is still in flight, no
later sequence of events without a start() ever publishes: the disarmed timer
cannot fire and resolving does nothing with no in-flight tick.  A tick whose
provider calls were in flight at the moment of stop() may still publish once
when it resolves. -/
theorem stop_quiesces_without_inflight (evs : List Ev) (s : SysState)
    (hstart : Ev.startE ∉ evs) (hrun : s.mon.running = false)
    (hin : s.inflight = []) :
    (runTrace s evs).2 = [] ∧ (runTrace s evs).1.mon.running = false ∧
    (runTrace s evs).1.inflight = [] := by
  induction evs generalizing s with
  | nil => exact ⟨rfl, hrun, hin⟩
  | cons e rest ih =>
    rw [List.mem_cons] at hstart
    push_neg at hstart
    obtain ⟨hne, hrest⟩ := hstart
    cases e with
    | fire input =>
      have hstep : stepEv s (.fire input) = (s, [], false) := by
        simp [stepEv, hrun]
      simpa [runTrace, hstep] using ih s hrest hrun hin
    | resolve =>
      have hstep : stepEv s .resolve = (s, [], false) := by
        simp [stepEv, hin]
      simpa [runTrace, hstep] using ih s hrest hrun hin
    | startE => exact absurd rfl hne
    | stopE =>
      simpa [runTrace, stepEv] using
        ih { s with mon := { s.mon with running := false } } hrest rfl hin
    | subscribeE cb =>
      simpa [runTrace, stepEv] using
        ih { s with mon := { s.mon with
              callbacks := subscribePush s.mon.callbacks cb } } hrest hrun hin

/-- Claim C4, witness: a stopped instance with nothing in flight stays silent
through a fire, a resolve and another stop. -/
theorem stop_quiesces_without_inflight_witness :
    (runTrace (initSys exConfig 0) [Ev.fire exTick0, Ev.resolve, Ev.stopE]).2 = [] ∧
    (runTrace (initSys exConfig 0)
      [Ev.fire exTick0, Ev.resolve, Ev.stopE]).1.mon.running = false ∧
    (runTrace (initSys exConfig 0)
      [Ev.fire exTick0, Ev.resolve, Ev.stopE]).1.inflight = [] :=
  stop_quiesces_without_inflight [Ev.fire exTick0, Ev.resolve, Ev.stopE]
    (initSys exConfig 0) (by decide) rfl rfl

/-- Claim C5, counterexample to the claim as stated.  After a first start, a
completed seed tick, stop() and a second start(), the baseline snapshot is
still held, so the first successful tick after the second start publishes
instead of seeding silently. -/
theorem restart_first_tick_publishes :
    exRestartMid.mon.lastStats = some exSnap0 ∧
    exRestartMid.mon.running = true ∧
    (runTrace exRestartMid [.fire exTick1, .resolve]).2 ≠ [] := by decide

/-- Claim C5, amended.  Whenever no baseline snapshot is held (in particular
on the first successful tick after the first start), a successful tick
publishes nothing and changes nothing except storing the snapshot as the new
baseline: totalStats keeps its proxied, direct and timestamp untouched. -/
theorem seed_tick_no_publish (st : MonitorState) (input : TickInput)
    (cs : NetworkSnapshot) (h1 : st.lastStats = none)
    (h2 : input.current = some cs) :
    tickBody st input = ({ st with lastStats := some cs }, none) := by
  simp [tickBody, h1, h2]

/-- Claim C5, witness: the seed tick of the concrete scenario. -/
theorem seed_tick_no_publish_witness :
    tickBody (initMonitor exConfig 0) exTick0
      = ({ initMonitor exConfig 0 with lastStats := some exSnap0 }, none) :=
  seed_tick_no_publish (initMonitor exConfig 0) exTick0 exSnap0 rfl rfl

/-- Claim C6: when the interface-stats provider call fails (absent input) or
no interface is up with positive received bytes, the capture returns none
rather than an error, and a tick fed that absent capture publishes nothing
and leaves the whole monitor state unchanged. -/
theorem absent_snapshot_skips_tick (providerStats : Option (List IfaceStat))
    (captureNow : Int) (st : MonitorState) (proxy : ProxyResults) (tickNow : Int)
    (h : providerStats = none ∨
      ∀ stat ∈ providerStats.getD [], ¬(stat.operstate = "up" ∧ stat.rx_bytes > 0)) :
    getCurrentStats providerStats captureNow = none ∧
    tickBody st { current := getCurrentStats providerStats captureNow,
                  proxy := proxy, now := tickNow } = (st, none) := by
  have hnone : getCurrentStats providerStats captureNow = none := by
    cases providerStats with
    | none => rfl
    | some stats =>
      rcases h with h | h
      · exact absurd h (by simp)
      · have hfind : (stats.find? fun stat =>
            stat.operstate == "up" && decide (stat.rx_bytes > 0)) = none := by
          rw [List.find?_eq_none]
          intro x hx
          have hx2 := h x (by simpa using hx)
          simp only [Bool.and_eq_true, beq_iff_eq, decide_eq_true_eq]
          tauto
        simp [getCurrentStats, hfind]
  rw [hnone]
  exact ⟨rfl, rfl⟩

/-- Claim C6, witness: a failed provider call after the seed tick. -/
theorem absent_snapshot_skips_tick_witness :
    getCurrentStats none 5 = none ∧
    tickBody exMon1 { current := getCurrentStats none 5,
                      proxy := exProxyMatched, now := 7 } = (exMon1, none) :=
  absent_snapshot_skips_tick none 5 exMon1 exProxyMatched 7 (Or.inl rfl)

/-- Claim C7, counterexample to the claim as stated.  When the same callback
instance is already on the list, subscribe followed by its disposer removes
both occurrences (the removal filters by identity over the whole list), so
the subscriber count drops below what it was before the subscribe. -/
theorem duplicate_subscribe_counterexample :
    (disposerRun (subscribePush [7] 7) 7).length ≠ ([7] : List Nat).length := by
  decide

/-- Claim C7, amended.  When the callback instance is not already on the
list, subscribe followed by its disposer restores the exact previous list,
and invoking the disposer again changes nothing (safe to invoke multiple
times). -/
theorem subscribe_dispose_fresh (l : List Nat) (cb : Nat) (h : cb ∉ l) :
    disposerRun (subscribePush l cb) cb = l ∧
    disposerRun (disposerRun (subscribePush l cb) cb) cb
      = disposerRun (subscribePush l cb) cb := by
  have hl : l.filter (fun c => c != cb) = l := by
    rw [List.filter_eq_self]
    intro a ha
    simp only [bne_iff_ne, ne_eq]
    exact fun he => h (he ▸ ha)
  have h1 : disposerRun (subscribePush l cb) cb = l := by
    simp only [disposerRun, subscribePush, List.filter_append, hl]
    simp
  exact ⟨h1, by rw [h1]; exact hl⟩

/-- Claim C7, witness: subscribing a fresh callback to a two-element list. -/
theorem subscribe_dispose_fresh_witness :
    disposerRun (subscribePush [3, 4] 7) 7 = [3, 4] ∧
    disposerRun (disposerRun (subscribePush [3, 4] 7) 7) 7
      = disposerRun (subscribePush [3, 4] 7) 7 :=
  subscribe_dispose_fresh [3, 4] 7 (by decide)

/-- Claim C8: start() on a running instance throws the usage error and leaves
the entire state, timer handle included, exactly as it was, publishing
nothing. -/
theorem double_start_rejected (s : SysState) (h : s.mon.running = true) :
    stepEv s .startE = (s, [], true) := by
  simp [stepEv, h]

/-- Claim C8, witness: a freshly started instance rejects a second start. -/
theorem double_start_rejected_witness :
    stepEv exRunning .startE = (exRunning, [], true) :=
  double_start_rejected exRunning (by rfl)

/-- Claim C9: formatBytes maps 1024, 1048576 and 1073741824 to 1.00 KB,
1.00 MB and 1.00 GB, and formatSpeed is formatBytes with the string /s
appended, for every input. -/
theorem format_bytes_speed_spec :
    formatBytes 1024 = "1.00 KB" ∧ formatBytes 1048576 = "1.00 MB" ∧
    formatBytes 1073741824 = "1.00 GB" ∧
    ∀ x : ℚ, formatSpeed x = formatBytes x ++ "/s" := by
  have l1 : formatLoop (1024 : ℚ) 0 3 = (1, 1) := by
    rw [formatLoop_step _ _ _ (by norm_num) (by norm_num),
        show (1024 : ℚ) / 1024 = 1 by norm_num,
        formatLoop_halt _ _ _ (by norm_num)]
  have l2 : formatLoop (1048576 : ℚ) 0 3 = (1, 2) := by
    rw [formatLoop_step _ _ _ (by norm_num) (by norm_num),
        show (1048576 : ℚ) / 1024 = 1024 by norm_num,
        formatLoop_step _ _ _ (by norm_num) (by norm_num),
        show (1024 : ℚ) / 1024 = 1 by norm_num,
        formatLoop_halt _ _ _ (by norm_num)]
  have l3 : formatLoop (1073741824 : ℚ) 0 3 = (1, 3) := by
    rw [formatLoop_step _ _ _ (by norm_num) (by norm_num),
        show (1073741824 : ℚ) / 1024 = 1048576 by norm_num,
        formatLoop_step _ _ _ (by norm_num) (by norm_num),
        show (1048576 : ℚ) / 1024 = 1024 by norm_num,
        formatLoop_step _ _ _ (by norm_num) (by norm_num),
        show (1024 : ℚ) / 1024 = 1 by norm_num]
    rfl
  refine ⟨?_, ?_, ?_, fun x => rfl⟩
  · simp only [formatBytes, l1, toFixed2_one]
    decide
  · simp only [formatBytes, l2, toFixed2_one]
    decide
  · simp only [formatBytes, l3, toFixed2_one]
    decide

/-- Claim C10: stop() flips only the timer handle — the baseline snapshot,
the live TrafficStats, the callbacks, the config and any in-flight tick list
are all untouched, nothing is published, and after a following start() the
baseline snapshot from before the stop is still held. -/
theorem stop_frame (s : SysState) :
    (stepEv s .stopE).1.mon.lastStats = s.mon.lastStats ∧
    (stepEv s .stopE).1.mon.totalStats = s.mon.totalStats ∧
    (stepEv s .stopE).1.mon.callbacks = s.mon.callbacks ∧
    (stepEv s .stopE).1.mon.config = s.mon.config ∧
    (stepEv s .stopE).1.inflight = s.inflight ∧
    (stepEv s .stopE).1.mon.running = false ∧
    (stepEv s .stopE).2.1 = [] ∧
    (stepEv (stepEv s .stopE).1 .startE).1.mon.lastStats = s.mon.lastStats := by
  simp [stepEv]

end TrafficLens
